import Mathlib

/-!
Shallow embedding of the reservation subsystem of a restaurant
reservation/review backend (Express + Mongoose controllers), together with
proofs about its capacity accounting, lifecycle transitions, authorization
checks, and best-effort notification layer.

Modelling conventions:
- Mongo documents are Lean structures; the collections are lists inside `DB`.
- JS numbers are `Int` (the code only ever compares and subtracts integers);
  an absent (`undefined`) numeric or string field is `none` of an `Option`.
- JS truthiness of a string is "nonempty", of a number is "nonzero".
- Each controller is a pure function from the incoming request data and the
  current `DB` to a result, the new `DB`, and the list of boolean results of
  its `safeEmit` calls.  The fresh `_id` chosen by `Reservation.create` is
  passed in as an explicit argument.
- A thrown-and-caught exception in a handler is its `err 500` branch.
-/

namespace ReservationBackend

/-- A character admissible in a hex ObjectId string. -/
def isHexChar (c : Char) : Bool :=
  c.isDigit || (('a' ≤ c) && (c ≤ 'f')) || (('A' ≤ c) && (c ≤ 'F'))

/-- Model of `mongoose.Types.ObjectId.isValid`: a 24-character hex string (or a
12-character arbitrary string, which mongoose also accepts). -/
def isValidObjectId (s : String) : Bool :=
  s.length == 12 || (s.length == 24 && s.data.all isHexChar)

/-- JS falsiness of an optional string field (`undefined` or `""`). -/
def strFalsy : Option String → Bool
  | none => true
  | some s => s == ""

/-- JS falsiness of an optional numeric field (`undefined` or `0`). -/
def intFalsy : Option Int → Bool
  | none => true
  | some n => n == 0

/-- Model of `if (field) target = field` for an optional string body field. -/
def applyStr (new? : Option String) (old : String) : String :=
  match new? with
  | some s => if s == "" then old else s
  | none => old

/-- Model of `if (field) target = field` for an optional numeric body field. -/
def applyInt (new? : Option Int) (old : Int) : Int :=
  match new? with
  | some n => if n == 0 then old else n
  | none => old

/-- A restaurant document, restricted to the fields the reservation
subsystem reads: `_id`, `owner`, the capacity field `tablesPerSlot`, and the
legacy `capacity` field.  `none` models a document where the field is
absent (`undefined`). -/
structure Restaurant where
  _id : String
  owner : String
  tablesPerSlot : Option Int
  capacity : Option Int
deriving Repr, DecidableEq

/-- A reservation document (`models/Reservation.js`): `date` and `time` are
stored as strings; `status` is an unconstrained string defaulting to
"pending". -/
structure Reservation where
  _id : String
  user : String
  restaurant : String
  date : String
  time : String
  partySize : Int
  status : String
deriving Repr, DecidableEq

/-- The persistent store: the two collections the reservation subsystem
touches. -/
structure DB where
  restaurants : List Restaurant
  reservations : List Reservation
deriving Repr, DecidableEq

/-- Model of `(typeof x === "number" && x) || rest`: an absent field, or the falsy
number 0, falls through to `rest`. -/
def jsNumOr (x : Option Int) (rest : Int) : Int :=
  match x with
  | some n => if n == 0 then rest else n
  | none => rest

/-- Capacity resolution in `createReservation`:
`(typeof r.tablesPerSlot === "number" && r.tablesPerSlot) ||
 (typeof r.capacity === "number" && r.capacity) || 10`. -/
def createCapacity (r : Restaurant) : Int :=
  jsNumOr r.tablesPerSlot (jsNumOr r.capacity 10)

/-- Capacity resolution in `updateReservation`: textually the same chain as
in `createReservation`. -/
def updateCapacity (r : Restaurant) : Int :=
  jsNumOr r.tablesPerSlot (jsNumOr r.capacity 10)

/-- Capacity resolution in `getAvailability`:
`r.tablesPerSlot ?? r.capacity ?? 10` — the nullish chain, which unlike the
truthiness chain keeps a present `0`. -/
def availabilityCapacity (r : Restaurant) : Int :=
  r.tablesPerSlot.getD (r.capacity.getD 10)

/-- Modelled from the spec (§4.1): `resolveCapacity(restaurant)` =
`restaurant.tablesPerSlot` if a number, else legacy `restaurant.capacity`
if a number, else literal default 10.  Used only to compare the spec's
contract with the code's three use sites. -/
def resolveCapacitySpec (r : Restaurant) : Int :=
  match r.tablesPerSlot with
  | some n => n
  | none =>
    match r.capacity with
    | some m => m
    | none => 10

/-- The slot-occupancy predicate used by every `countDocuments` /
`findOne` on the reservation collection: same restaurant, exact string
equality on date and time, `status: { $ne: "cancelled" }`. -/
def inSlot (rid d t : String) (r : Reservation) : Bool :=
  r.restaurant == rid && r.date == d && r.time == t && r.status != "cancelled"

/-- Model of the query `Reservation.countDocuments` with filter
(restaurant, date, time, status not "cancelled"). -/
def slotCount (db : DB) (rid d t : String) : Nat :=
  (db.reservations.filter (inSlot rid d t)).length

/-- The same count with `_id: { $ne: selfId }` added (used by
`updateReservation` to exclude the reservation being moved). -/
def otherSlotCount (db : DB) (rid d t selfId : String) : Nat :=
  (db.reservations.filter (fun r => inSlot rid d t r && r._id != selfId)).length

/-- The duplicate-booking predicate of `createReservation`'s `findOne`:
same user, same restaurant, exact string equality on date and time, status
not cancelled. -/
def dupPred (userId rid d t : String) (r : Reservation) : Bool :=
  r.user == userId && r.restaurant == rid && r.date == d && r.time == t &&
    r.status != "cancelled"

/-- The socket.io transport, abstracted to whether a given
`emit(eventName, payload)` (optionally `.to(room)`) throws. -/
structure Transport where
  raises : String → String → Option String → Bool

/-- Model of `tryGetIO` in `socketHelper.js`: returns the io instance or `null`
(catching `getIO`'s throw when the socket is not initialized). -/
def tryGetIo (io? : Option Transport) : Option Transport :=
  io?

/-- Model of `safeEmit(eventName, payload, room)` in `socketHelper.js`: returns
`false` if the transport is not initialized, emits inside a try/catch and
returns `false` (after a warning log) if the emit throws, else `true`. -/
def safeEmit (io? : Option Transport) (eventName payload : String)
    (room : Option String := none) : Bool :=
  match tryGetIo io? with
  | none => false
  | some t => if t.raises eventName payload room then false else true

/-- A reservation-endpoint response: an error `{message}` with its HTTP
status code, or a success code with the (populated) reservation document. -/
inductive Outcome where
  | err (code : Nat) (msg : String)
  | ok (code : Nat) (r : Reservation)
deriving Repr, DecidableEq

/-- What a reservation handler produces: the HTTP outcome, the store after
the handler, and the boolean results of its `safeEmit` calls in order. -/
structure OpOut where
  res : Outcome
  db : DB
  emits : List Bool
deriving Repr, DecidableEq

/-- Handler of `POST /api/reservations` (`createReservation`): validates presence of
the four body fields and the id format, 404s on a missing restaurant,
rejects a duplicate non-cancelled booking by the same user for the exact
slot (400), rejects a full slot (409, `slotCount >= capacity`), otherwise
persists a new pending reservation and emits `reservationCreated` globally
and to the restaurant room. -/
def createReservation (io? : Option Transport) (db : DB) (userId : String)
    (restaurantId? date? time? : Option String) (partySize? : Option Int)
    (newId : String) : OpOut :=
  if strFalsy restaurantId? || strFalsy date? || strFalsy time? ||
      intFalsy partySize? then
    ⟨.err 400 "Missing reservation fields", db, []⟩
  else
    let restaurantId := restaurantId?.getD ""
    let date := date?.getD ""
    let time := time?.getD ""
    let partySize := partySize?.getD 0
    if !isValidObjectId restaurantId then
      ⟨.err 400 "Invalid restaurant id", db, []⟩
    else
      match db.restaurants.find? (fun r => r._id == restaurantId) with
      | none => ⟨.err 404 "Restaurant not found", db, []⟩
      | some restaurant =>
        let capacity := createCapacity restaurant
        match db.reservations.find? (dupPred userId restaurantId date time) with
        | some _ =>
          ⟨.err 400 "You already have a reservation for this slot", db, []⟩
        | none =>
          if capacity ≤ (slotCount db restaurantId date time : Int) then
            ⟨.err 409 "No availability for selected slot", db, []⟩
          else
            let resv : Reservation :=
              ⟨newId, userId, restaurantId, date, time, partySize, "pending"⟩
            let e1 := safeEmit io? "reservationCreated" "reservation"
            let e2 := safeEmit io? "reservationCreated" "reservation"
              (some ("restaurant_" ++ restaurantId))
            ⟨.ok 201 resv,
             { db with reservations := db.reservations ++ [resv] }, [e1, e2]⟩

/-- Handler of `PUT /api/reservations/:id/cancel` (`cancelReservation`): authorized
for the reservation's user, the restaurant's owner, or an admin; sets
`status` to "cancelled" unconditionally (whatever the prior status) and
saves; then emits `reservationCancelled`.  If the populated restaurant
document is absent, building the emit payload dereferences `null` and the
thrown error is caught by the handler as a 500 — after the cancellation has
already been saved. -/
def cancelReservation (io? : Option Transport) (db : DB)
    (userId role id : String) : OpOut :=
  if !isValidObjectId id then ⟨.err 400 "Invalid reservation id", db, []⟩
  else
    match db.reservations.find? (fun r => r._id == id) with
    | none => ⟨.err 404 "Reservation not found", db, []⟩
    | some resv =>
      let restaurant? := db.restaurants.find? (fun r => r._id == resv.restaurant)
      let isReservationUser := resv.user == userId
      let isRestaurantOwner :=
        match restaurant? with
        | some rest => rest.owner == userId
        | none => false
      let isAdmin := role == "admin"
      if !isReservationUser && !isRestaurantOwner && !isAdmin then
        ⟨.err 403 "Not authorized to cancel this reservation", db, []⟩
      else
        let resv' := { resv with status := "cancelled" }
        let db' := { db with reservations :=
          db.reservations.map (fun x => if x._id == id then resv' else x) }
        match restaurant? with
        | none => ⟨.err 500 "Server error", db', []⟩
        | some _ =>
          let e1 := safeEmit io? "reservationCancelled" "summary"
          let e2 := safeEmit io? "reservationCancelled" "reservation"
            (some ("restaurant_" ++ resv.restaurant))
          ⟨.ok 200 resv', db', [e1, e2]⟩

/-- Handler of `PUT /api/reservations/:id` (`updateReservation`): authorized for the
reservation's user or an admin; resolves the target slot as
`date ?? reservation.date`, `time ?? reservation.time`; recomputes the
restaurant's capacity; counts non-cancelled reservations at the target
slot excluding this reservation's own id; 409s when that count is at least
the capacity, leaving the store untouched; otherwise applies each truthy
body field, saves, and emits `reservationUpdated`.  A missing populated
restaurant makes `reservation.restaurant._id` throw before any write
(500). -/
def updateReservation (io? : Option Transport) (db : DB)
    (userId role id : String) (date? time? : Option String)
    (partySize? : Option Int) : OpOut :=
  if !isValidObjectId id then ⟨.err 400 "Invalid reservation id", db, []⟩
  else
    match db.reservations.find? (fun r => r._id == id) with
    | none => ⟨.err 404 "Reservation not found", db, []⟩
    | some resv =>
      let isReservationUser := resv.user == userId
      let isAdmin := role == "admin"
      if !isReservationUser && !isAdmin then
        ⟨.err 403 "Not authorized to update this reservation", db, []⟩
      else
        let newDate := date?.getD resv.date
        let newTime := time?.getD resv.time
        match db.restaurants.find? (fun r => r._id == resv.restaurant) with
        | none => ⟨.err 500 "Server error", db, []⟩
        | some restaurant =>
          let capacity := updateCapacity restaurant
          if capacity ≤ (otherSlotCount db resv.restaurant newDate newTime resv._id : Int) then
            ⟨.err 409 "Requested slot is fully booked", db, []⟩
          else
            let resv' := { resv with
              date := applyStr date? resv.date
              time := applyStr time? resv.time
              partySize := applyInt partySize? resv.partySize }
            let db' := { db with reservations :=
              db.reservations.map (fun x => if x._id == id then resv' else x) }
            let e1 := safeEmit io? "reservationUpdated" "reservation"
            let e2 := safeEmit io? "reservationUpdated" "reservation"
              (some ("restaurant_" ++ resv.restaurant))
            ⟨.ok 200 resv', db', [e1, e2]⟩

/-- The four status values accepted by `updateReservationStatus`. -/
def allowedStatuses : List String :=
  ["pending", "confirmed", "completed", "cancelled"]

/-- Handler of `PUT /api/reservations/:id/status` (`updateReservationStatus`):
authorization (restaurant owner or admin) is checked first; only then is
the body's `status` validated against the four allowed values; the status
is then set unconditionally (whatever the prior status) and saved, and
`reservationStatusChanged` is emitted.  A missing populated restaurant
makes the room name computation throw after the save and the global emit
(500). -/
def updateReservationStatus (io? : Option Transport) (db : DB)
    (userId role id : String) (status? : Option String) : OpOut :=
  if !isValidObjectId id then ⟨.err 400 "Invalid reservation id", db, []⟩
  else
    match db.reservations.find? (fun r => r._id == id) with
    | none => ⟨.err 404 "Reservation not found", db, []⟩
    | some resv =>
      let restaurant? := db.restaurants.find? (fun r => r._id == resv.restaurant)
      let isRestaurantOwner :=
        match restaurant? with
        | some rest => rest.owner == userId
        | none => false
      let isAdmin := role == "admin"
      if !isRestaurantOwner && !isAdmin then
        ⟨.err 403 "Not authorized to update status", db, []⟩
      else
        let statusAllowed :=
          match status? with
          | some s => allowedStatuses.contains s
          | none => false
        if !statusAllowed then ⟨.err 400 "Invalid status", db, []⟩
        else
          let s := status?.getD ""
          let resv' := { resv with status := s }
          let db' := { db with reservations :=
            db.reservations.map (fun x => if x._id == id then resv' else x) }
          let e1 := safeEmit io? "reservationStatusChanged" "summary"
          match restaurant? with
          | none => ⟨.err 500 "Server error", db', [e1]⟩
          | some _ =>
            let e2 := safeEmit io? "reservationStatusChanged" "full"
              (some ("restaurant_" ++ resv.restaurant))
            ⟨.ok 200 resv', db', [e1, e2]⟩

/-- Handler of `PUT /api/admin/reservations/:id/cancel` (`cancelReservationByAdmin`,
behind admin middleware): no authorization or status inspection beyond id
validity and existence; sets `status` to "cancelled" unconditionally,
saves, emits `reservationCancelled` (the restaurant reference here is the
raw id, so nothing can throw). -/
def cancelReservationByAdmin (io? : Option Transport) (db : DB)
    (id : String) : OpOut :=
  if !isValidObjectId id then ⟨.err 400 "Invalid id", db, []⟩
  else
    match db.reservations.find? (fun r => r._id == id) with
    | none => ⟨.err 404 "Not found", db, []⟩
    | some resv =>
      let resv' := { resv with status := "cancelled" }
      let db' := { db with reservations :=
        db.reservations.map (fun x => if x._id == id then resv' else x) }
      let e1 := safeEmit io? "reservationCancelled" "summary"
      let e2 := safeEmit io? "reservationCancelled" "reservation"
        (some ("restaurant_" ++ resv.restaurant))
      ⟨.ok 200 resv', db', [e1, e2]⟩

/-- Handler of `PUT /api/admin/reservations/:id` (`updateReservationByAdmin`): applies
any truthy `status`, `date`, `time`, `partySize` from the body with no
capacity check on the target slot and no validation of the status value,
saves, emits `reservationUpdated`, returns 200. -/
def updateReservationByAdmin (io? : Option Transport) (db : DB) (id : String)
    (status? date? time? : Option String) (partySize? : Option Int) : OpOut :=
  if !isValidObjectId id then ⟨.err 400 "Invalid id", db, []⟩
  else
    match db.reservations.find? (fun r => r._id == id) with
    | none => ⟨.err 404 "Not found", db, []⟩
    | some resv =>
      let resv' := { resv with
        status := applyStr status? resv.status
        date := applyStr date? resv.date
        time := applyStr time? resv.time
        partySize := applyInt partySize? resv.partySize }
      let db' := { db with reservations :=
        db.reservations.map (fun x => if x._id == id then resv' else x) }
      let e1 := safeEmit io? "reservationUpdated" "reservation"
      let e2 := safeEmit io? "reservationUpdated" "reservation"
        (some ("restaurant_" ++ resv.restaurant))
      ⟨.ok 200 resv', db', [e1, e2]⟩

/-- An availability response: an error `{message}` with its status code, or
the `{capacity, booked, available}` summary. -/
inductive AvailOut where
  | err (code : Nat) (msg : String)
  | ok (capacity : Int) (booked : Nat) (available : Int)
deriving Repr, DecidableEq

/-- Handler of `GET /api/restaurants/:id/availability` (`getAvailability`): validates
the id and the presence of the `date` and `time` query parameters, resolves
capacity with the nullish chain, counts non-cancelled reservations at the
slot, and returns `available = max(0, capacity - booked)`.  It performs no
write, so it returns the store unchanged. -/
def getAvailability (db : DB) (id : String)
    (date? time? : Option String) : AvailOut × DB :=
  if !isValidObjectId id then (.err 400 "Invalid restaurant id", db)
  else if strFalsy date? || strFalsy time? then
    (.err 400 "date and time query parameters required", db)
  else
    match db.restaurants.find? (fun r => r._id == id) with
    | none => (.err 404 "Restaurant not found", db)
    | some restaurant =>
      let capacity := availabilityCapacity restaurant
      let booked := slotCount db id (date?.getD "") (time?.getD "")
      let available := max 0 (capacity - (booked : Int))
      (.ok capacity booked available, db)

/-! ## C2: capacity resolution at the three use sites -/

/-- C2 (counterexample): the claim that Create, Update details, and
availability all resolve capacity by the single chain
"`tablesPerSlot` if a number, else `capacity` if a number, else 10", with a
positive result and an identical fallback order at every use site, is
false.  On a restaurant with `tablesPerSlot = 0` and `capacity = 5` the
truthiness chain of Create/Update yields 5 while the nullish chain of
availability (and the spec's `resolveCapacity`) yields 0, which is also not
positive. -/
theorem capacity_sites_differ_counterexample :
    createCapacity ⟨"rrrrrrrrrrrr", "owner1", some 0, some 5⟩ = 5 ∧
    availabilityCapacity ⟨"rrrrrrrrrrrr", "owner1", some 0, some 5⟩ = 0 ∧
    resolveCapacitySpec ⟨"rrrrrrrrrrrr", "owner1", some 0, some 5⟩ = 0 ∧
    createCapacity ⟨"rrrrrrrrrrrr", "owner1", some 0, some 5⟩ ≠
      availabilityCapacity ⟨"rrrrrrrrrrrr", "owner1", some 0, some 5⟩ ∧
    ¬ 0 < availabilityCapacity ⟨"rrrrrrrrrrrr", "owner1", some 0, some 5⟩ := by
  refine ⟨rfl, rfl, rfl, by decide, by decide⟩

/-- C2 (amended): Create and Update details share one truthiness fallback
chain (`tablesPerSlot` if a nonzero number, else `capacity` if a nonzero
number, else 10); availability uses the nullish chain
`tablesPerSlot ?? capacity ?? 10`, which is exactly the spec's
`resolveCapacity` contract; whenever every present capacity field is a
positive number, all the use sites agree and the result is positive. -/
theorem capacity_sites_amended (r : Restaurant) :
    createCapacity r = updateCapacity r ∧
    availabilityCapacity r = resolveCapacitySpec r ∧
    ((∀ n, r.tablesPerSlot = some n → 0 < n) →
     (∀ m, r.capacity = some m → 0 < m) →
     createCapacity r = resolveCapacitySpec r ∧
     updateCapacity r = resolveCapacitySpec r ∧
     availabilityCapacity r = resolveCapacitySpec r ∧
     0 < resolveCapacitySpec r) := by
  obtain ⟨i, o, ts, cap⟩ := r
  refine ⟨rfl, ?_, ?_⟩
  · cases ts <;> cases cap <;> rfl
  · intro hts hcap
    cases ts with
    | none =>
      cases cap with
      | none => exact ⟨rfl, rfl, rfl, by simp [resolveCapacitySpec]⟩
      | some m =>
        have hm := hcap m rfl
        have hm' : (m == 0) = false := by
          simp only [beq_eq_false_iff_ne]; omega
        refine ⟨?_, ?_, rfl, hm⟩ <;>
          simp [createCapacity, updateCapacity, resolveCapacitySpec, jsNumOr, hm']
    | some n =>
      have hn := hts n rfl
      have hn' : (n == 0) = false := by
        simp only [beq_eq_false_iff_ne]; omega
      refine ⟨?_, ?_, ?_, hn⟩ <;>
        simp [createCapacity, updateCapacity, resolveCapacitySpec,
          availabilityCapacity, jsNumOr, hn']

/-- C2 (amended) witness at `tablesPerSlot = 3`, `capacity` absent. -/
theorem capacity_sites_amended_witness :
    createCapacity ⟨"rrrrrrrrrrrr", "owner1", some 3, none⟩ =
      resolveCapacitySpec ⟨"rrrrrrrrrrrr", "owner1", some 3, none⟩ ∧
    updateCapacity ⟨"rrrrrrrrrrrr", "owner1", some 3, none⟩ =
      resolveCapacitySpec ⟨"rrrrrrrrrrrr", "owner1", some 3, none⟩ ∧
    availabilityCapacity ⟨"rrrrrrrrrrrr", "owner1", some 3, none⟩ =
      resolveCapacitySpec ⟨"rrrrrrrrrrrr", "owner1", some 3, none⟩ ∧
    0 < resolveCapacitySpec ⟨"rrrrrrrrrrrr", "owner1", some 3, none⟩ :=
  (capacity_sites_amended ⟨"rrrrrrrrrrrr", "owner1", some 3, none⟩).2.2
    (fun n h => by injection h with h'; omega)
    (fun m h => by cases h)

/-! ## C7: availability -/

/-- C7: for a well-formed id of an existing restaurant and present `date`
and `time` parameters, `getAvailability` returns `{capacity, booked,
available}` with `booked` the count of non-cancelled reservations at the
slot and `available = max(0, capacity - booked)`, hence `available ≥ 0`,
and it leaves the store unchanged. -/
theorem getAvailability_correct (db : DB) (id d t : String) (rest : Restaurant)
    (hvalid : isValidObjectId id = true)
    (hd : d ≠ "") (ht : t ≠ "")
    (hrest : db.restaurants.find? (fun r => r._id == id) = some rest) :
    getAvailability db id (some d) (some t) =
      (AvailOut.ok (availabilityCapacity rest) (slotCount db id d t)
        (max 0 (availabilityCapacity rest - (slotCount db id d t : Int))), db) ∧
    0 ≤ max 0 (availabilityCapacity rest - (slotCount db id d t : Int)) := by
  constructor
  · simp [getAvailability, hvalid, hrest, strFalsy, hd, ht]
  · exact le_max_left 0 _

/-- C7 witness: a store with one restaurant of capacity 2 and one pending
booking at the queried slot reports booked 1 and available 1. -/
theorem getAvailability_correct_witness :
    getAvailability
      ⟨[⟨"rrrrrrrrrrrr", "owner1", some 2, none⟩],
       [⟨"vvvvvvvvvvvv", "alice", "rrrrrrrrrrrr", "2025-01-01", "19:00", 2, "pending"⟩]⟩
      "rrrrrrrrrrrr" (some "2025-01-01") (some "19:00") =
      (AvailOut.ok 2 1 1,
       ⟨[⟨"rrrrrrrrrrrr", "owner1", some 2, none⟩],
        [⟨"vvvvvvvvvvvv", "alice", "rrrrrrrrrrrr", "2025-01-01", "19:00", 2, "pending"⟩]⟩) ∧
    (0 : Int) ≤ 1 := by
  have h := getAvailability_correct
    ⟨[⟨"rrrrrrrrrrrr", "owner1", some 2, none⟩],
     [⟨"vvvvvvvvvvvv", "alice", "rrrrrrrrrrrr", "2025-01-01", "19:00", 2, "pending"⟩]⟩
    "rrrrrrrrrrrr" "2025-01-01" "19:00" ⟨"rrrrrrrrrrrr", "owner1", some 2, none⟩
    (by decide) (by decide) (by decide) (by decide)
  exact ⟨by rw [h.1]; decide, by decide⟩

/-! ## C8: the notification publish function -/

/-- C8: `safeEmit` is total (it always returns a boolean — the thrown
`getIO` error and any transport-level throw are caught internally): it
returns `false` exactly when the transport is not yet initialized or the
underlying emit throws, `true` exactly when delivery was attempted; and the
calling business operation (here `createReservation`) produces the same
HTTP outcome and the same store whatever the transport does, so a `false`
return never fails it. -/
theorem safeEmit_never_raises_boolean_contract :
    (∀ (io? : Option Transport) (e p : String) (room : Option String),
      (safeEmit io? e p room = false ↔
        io? = none ∨ ∃ t, io? = some t ∧ t.raises e p room = true) ∧
      (safeEmit io? e p room = true ↔
        ∃ t, io? = some t ∧ t.raises e p room = false)) ∧
    (∀ (io?₁ io?₂ : Option Transport) (db : DB) (userId : String)
       (restaurantId? date? time? : Option String) (partySize? : Option Int)
       (newId : String),
      (createReservation io?₁ db userId restaurantId? date? time? partySize?
        newId).res =
      (createReservation io?₂ db userId restaurantId? date? time? partySize?
        newId).res ∧
      (createReservation io?₁ db userId restaurantId? date? time? partySize?
        newId).db =
      (createReservation io?₂ db userId restaurantId? date? time? partySize?
        newId).db) := by
  constructor
  · intro io? e p room
    constructor
    · cases io? with
      | none => simp [safeEmit, tryGetIo]
      | some t =>
        simp only [safeEmit, tryGetIo]
        by_cases h : t.raises e p room = true <;> simp [h]
    · cases io? with
      | none => simp [safeEmit, tryGetIo]
      | some t =>
        simp only [safeEmit, tryGetIo]
        by_cases h : t.raises e p room = true <;> simp [h]
  · intro io?₁ io?₂ db userId restaurantId? date? time? partySize? newId
    constructor <;>
    · simp only [createReservation]
      split
      · rfl
      · split
        · rfl
        · split
          · rfl
          · split
            · rfl
            · split
              · rfl
              · rfl

/-! ## C3: status update validation versus authorization order -/

/-- C3 (counterexample): the claim that an invalid status value is rejected
with Validation (400) regardless of the actor is false: for the actor
"mallory" (neither the restaurant's owner "owner1" nor an admin) requesting
the disallowed status "archived" on an existing reservation, the code
answers Forbidden (403), because authorization is checked before the status
value. -/
theorem updateStatus_invalid_status_counterexample :
    (updateReservationStatus none
      ⟨[⟨"rrrrrrrrrrrr", "owner1", some 5, none⟩],
       [⟨"vvvvvvvvvvvv", "alice", "rrrrrrrrrrrr", "2025-01-01", "19:00", 2,
         "pending"⟩]⟩
      "mallory" "user" "vvvvvvvvvvvv" (some "archived")).res =
      .err 403 "Not authorized to update status" ∧
    allowedStatuses.contains "archived" = false := by
  constructor
  · rfl
  · decide

/-- C3 (amended): Update status checks authorization first: an actor who is
neither the restaurant's owner nor an admin receives Forbidden (403)
whatever the requested status value; only for an authorized actor is a
status value outside {pending, confirmed, completed, cancelled} rejected
with Validation (400); in both cases the store is left unchanged. -/
theorem updateStatus_auth_then_validation
    (io? : Option Transport) (db : DB) (userId role id : String)
    (status? : Option String) (resv : Reservation)
    (hvalid : isValidObjectId id = true)
    (hfind : db.reservations.find? (fun r => r._id == id) = some resv) :
    (¬ ((∃ rest, db.restaurants.find? (fun r => r._id == resv.restaurant) =
          some rest ∧ rest.owner = userId) ∨ role = "admin") →
      updateReservationStatus io? db userId role id status? =
        ⟨.err 403 "Not authorized to update status", db, []⟩) ∧
    (((∃ rest, db.restaurants.find? (fun r => r._id == resv.restaurant) =
          some rest ∧ rest.owner = userId) ∨ role = "admin") →
      ∀ s, status? = some s → ¬ s ∈ allowedStatuses →
      updateReservationStatus io? db userId role id status? =
        ⟨.err 400 "Invalid status", db, []⟩) := by
  constructor
  · intro hnoauth
    have hadmin : (role == "admin") = false := by
      simp only [beq_eq_false_iff_ne]
      exact fun h => hnoauth (Or.inr h)
    cases hr : db.restaurants.find? (fun r => r._id == resv.restaurant) with
    | none => simp [updateReservationStatus, hvalid, hfind, hr, hadmin]
    | some rest =>
      have hro : (rest.owner == userId) = false := by
        simp only [beq_eq_false_iff_ne]
        exact fun h => hnoauth (Or.inl ⟨rest, hr, h⟩)
      simp [updateReservationStatus, hvalid, hfind, hr, hadmin, hro]
  · intro hauth s hs hsbad
    have hnotallowed : allowedStatuses.contains s = false := by
      cases hcs : allowedStatuses.contains s with
      | false => rfl
      | true => exact absurd (List.elem_iff.mp hcs) hsbad
    rcases hauth with ⟨rest, hr, heq⟩ | hadmin
    · simp [updateReservationStatus, hvalid, hfind, hr, heq, hs, hnotallowed]
      exact hsbad
    · have hadmin' : (role == "admin") = true := by
        simp only [beq_iff_eq]; exact hadmin
      cases hr : db.restaurants.find? (fun r => r._id == resv.restaurant) with
      | none =>
        simp [updateReservationStatus, hvalid, hfind, hr, hadmin', hs,
          hnotallowed]
        exact hsbad
      | some rest =>
        simp [updateReservationStatus, hvalid, hfind, hr, hadmin', hs,
          hnotallowed]
        exact hsbad

/-- C3 (amended) witness: owner "owner1" requesting "archived" gets 400;
the unrelated actor "mallory" requesting "archived" gets 403. -/
theorem updateStatus_auth_then_validation_witness :
    updateReservationStatus none
      ⟨[⟨"rrrrrrrrrrrr", "owner1", some 5, none⟩],
       [⟨"vvvvvvvvvvvv", "alice", "rrrrrrrrrrrr", "2025-01-01", "19:00", 2,
         "pending"⟩]⟩
      "owner1" "owner" "vvvvvvvvvvvv" (some "archived") =
      ⟨.err 400 "Invalid status",
       ⟨[⟨"rrrrrrrrrrrr", "owner1", some 5, none⟩],
        [⟨"vvvvvvvvvvvv", "alice", "rrrrrrrrrrrr", "2025-01-01", "19:00", 2,
          "pending"⟩]⟩, []⟩ ∧
    updateReservationStatus none
      ⟨[⟨"rrrrrrrrrrrr", "owner1", some 5, none⟩],
       [⟨"vvvvvvvvvvvv", "alice", "rrrrrrrrrrrr", "2025-01-01", "19:00", 2,
         "pending"⟩]⟩
      "mallory" "user" "vvvvvvvvvvvv" (some "archived") =
      ⟨.err 403 "Not authorized to update status",
       ⟨[⟨"rrrrrrrrrrrr", "owner1", some 5, none⟩],
        [⟨"vvvvvvvvvvvv", "alice", "rrrrrrrrrrrr", "2025-01-01", "19:00", 2,
          "pending"⟩]⟩, []⟩ := by
  constructor
  · exact (updateStatus_auth_then_validation none _ "owner1" "owner"
      "vvvvvvvvvvvv" (some "archived")
      ⟨"vvvvvvvvvvvv", "alice", "rrrrrrrrrrrr", "2025-01-01", "19:00", 2,
        "pending"⟩ (by decide) (by decide)).2
      (Or.inl ⟨⟨"rrrrrrrrrrrr", "owner1", some 5, none⟩, by decide, rfl⟩)
      "archived" rfl (by decide)
  · exact (updateStatus_auth_then_validation none _ "mallory" "user"
      "vvvvvvvvvvvv" (some "archived")
      ⟨"vvvvvvvvvvvv", "alice", "rrrrrrrrrrrr", "2025-01-01", "19:00", 2,
        "pending"⟩ (by decide) (by decide)).1
      (by rintro (⟨rest, hr, heq⟩ | hadmin)
          · revert hr
            simp only [List.find?]
            intro hr
            cases hr
            exact absurd heq (by decide)
          · exact absurd hadmin (by decide))

/-! ## C4: there is no transition guard on the status -/

/-- C4 (counterexample): the claim that `cancelled` and `completed` are
terminal is false: an authorized Cancel on a reservation whose status is
"completed" succeeds with 200 and changes the status to "cancelled". -/
theorem terminal_states_not_terminal_counterexample :
    (cancelReservation none
      ⟨[⟨"rrrrrrrrrrrr", "owner1", some 5, none⟩],
       [⟨"vvvvvvvvvvvv", "alice", "rrrrrrrrrrrr", "2025-01-01", "19:00", 2,
         "completed"⟩]⟩
      "alice" "user" "vvvvvvvvvvvv").res =
      .ok 200 ⟨"vvvvvvvvvvvv", "alice", "rrrrrrrrrrrr", "2025-01-01", "19:00",
        2, "cancelled"⟩ ∧
    (cancelReservation none
      ⟨[⟨"rrrrrrrrrrrr", "owner1", some 5, none⟩],
       [⟨"vvvvvvvvvvvv", "alice", "rrrrrrrrrrrr", "2025-01-01", "19:00", 2,
         "completed"⟩]⟩
      "alice" "user" "vvvvvvvvvvvv").db.reservations =
      [⟨"vvvvvvvvvvvv", "alice", "rrrrrrrrrrrr", "2025-01-01", "19:00", 2,
        "cancelled"⟩] := by
  constructor <;> rfl

/-- C4 (amended): the Lifecycle Manager enforces no state machine at all:
for a reservation of any prior status — including "completed" and
"cancelled" — an authorized Cancel sets the status to "cancelled", and an
authorized Update status sets any of the four allowed values; so
"cancelled" and "completed" are not terminal. -/
theorem no_transition_guard
    (io? : Option Transport) (db : DB) (userId role id : String)
    (resv : Reservation) (rest : Restaurant)
    (hvalid : isValidObjectId id = true)
    (hfind : db.reservations.find? (fun r => r._id == id) = some resv)
    (hrest : db.restaurants.find? (fun r => r._id == resv.restaurant) =
      some rest)
    (huser : resv.user = userId) (hadmin : role = "admin") :
    ((cancelReservation io? db userId role id).res =
      .ok 200 { resv with status := "cancelled" }) ∧
    ((cancelReservation io? db userId role id).db.reservations =
      db.reservations.map
        (fun x => if x._id == id then { resv with status := "cancelled" }
          else x)) ∧
    (∀ s ∈ allowedStatuses,
      (updateReservationStatus io? db userId role id (some s)).res =
        .ok 200 { resv with status := s } ∧
      (updateReservationStatus io? db userId role id (some s)).db.reservations =
        db.reservations.map
          (fun x => if x._id == id then { resv with status := s } else x)) := by
  refine ⟨?_, ?_, ?_⟩
  · simp [cancelReservation, hvalid, hfind, hrest, huser]
  · simp [cancelReservation, hvalid, hfind, hrest, huser]
  · intro s hs
    have hcs : allowedStatuses.contains s = true := List.elem_iff.mpr hs
    constructor <;>
      simp [updateReservationStatus, hvalid, hfind, hrest, hadmin, hcs, hs]

/-- C4 (amended) witness: the admin "alice" (also the reservation's user)
cancels a completed reservation, and separately sets a cancelled-like
record back to "confirmed" — both transitions out of supposedly terminal
states succeed. -/
theorem no_transition_guard_witness :
    (cancelReservation none
      ⟨[⟨"rrrrrrrrrrrr", "owner1", some 5, none⟩],
       [⟨"vvvvvvvvvvvv", "alice", "rrrrrrrrrrrr", "2025-01-01", "19:00", 2,
         "completed"⟩]⟩
      "alice" "admin" "vvvvvvvvvvvv").res =
      .ok 200 ⟨"vvvvvvvvvvvv", "alice", "rrrrrrrrrrrr", "2025-01-01", "19:00",
        2, "cancelled"⟩ ∧
    (updateReservationStatus none
      ⟨[⟨"rrrrrrrrrrrr", "owner1", some 5, none⟩],
       [⟨"vvvvvvvvvvvv", "alice", "rrrrrrrrrrrr", "2025-01-01", "19:00", 2,
         "completed"⟩]⟩
      "alice" "admin" "vvvvvvvvvvvv" (some "confirmed")).res =
      .ok 200 ⟨"vvvvvvvvvvvv", "alice", "rrrrrrrrrrrr", "2025-01-01", "19:00",
        2, "confirmed"⟩ := by
  have h := no_transition_guard none
    ⟨[⟨"rrrrrrrrrrrr", "owner1", some 5, none⟩],
     [⟨"vvvvvvvvvvvv", "alice", "rrrrrrrrrrrr", "2025-01-01", "19:00", 2,
       "completed"⟩]⟩
    "alice" "admin" "vvvvvvvvvvvv"
    ⟨"vvvvvvvvvvvv", "alice", "rrrrrrrrrrrr", "2025-01-01", "19:00", 2,
      "completed"⟩
    ⟨"rrrrrrrrrrrr", "owner1", some 5, none⟩
    (by decide) (by decide) (by decide) rfl rfl
  exact ⟨h.1, (h.2.2 "confirmed" (by decide)).1⟩

/-! ## C5: update to a full slot fails 409 with no partial write -/

/-- C5: when Update details targets a (date, time) slot whose count of
other non-cancelled reservations (excluding this reservation's own id) is
at least the restaurant's resolved capacity, it returns 409 and the store —
in particular the reservation's date, time, and partySize — is exactly what
it was before. -/
theorem updateReservation_full_slot_409_unchanged
    (io? : Option Transport) (db : DB) (userId role id : String)
    (date? time? : Option String) (partySize? : Option Int)
    (resv : Reservation) (rest : Restaurant)
    (hvalid : isValidObjectId id = true)
    (hfind : db.reservations.find? (fun r => r._id == id) = some resv)
    (hauth : resv.user = userId ∨ role = "admin")
    (hrest : db.restaurants.find? (fun r => r._id == resv.restaurant) =
      some rest)
    (hfull : updateCapacity rest ≤
      (otherSlotCount db resv.restaurant (date?.getD resv.date)
        (time?.getD resv.time) resv._id : Int)) :
    updateReservation io? db userId role id date? time? partySize? =
      ⟨.err 409 "Requested slot is fully booked", db, []⟩ := by
  rcases hauth with huser | hadmin
  · simp [updateReservation, hvalid, hfind, hrest, huser, hfull]
  · simp [updateReservation, hvalid, hfind, hrest, hadmin, hfull]

/-- C5 witness: moving bob's reservation onto the 20:00 slot already full
with alice's booking (capacity 1) fails with 409 and the store — including
bob's original date, time, and partySize — is unchanged. -/
theorem updateReservation_full_slot_409_unchanged_witness :
    updateReservation none
      ⟨[⟨"rrrrrrrrrrrr", "owner1", some 1, none⟩],
       [⟨"wwwwwwwwwwww", "bob", "rrrrrrrrrrrr", "2025-01-01", "19:00", 2,
         "pending"⟩,
        ⟨"vvvvvvvvvvvv", "alice", "rrrrrrrrrrrr", "2025-01-01", "20:00", 4,
         "confirmed"⟩]⟩
      "bob" "user" "wwwwwwwwwwww" none (some "20:00") none =
      ⟨.err 409 "Requested slot is fully booked",
       ⟨[⟨"rrrrrrrrrrrr", "owner1", some 1, none⟩],
        [⟨"wwwwwwwwwwww", "bob", "rrrrrrrrrrrr", "2025-01-01", "19:00", 2,
          "pending"⟩,
         ⟨"vvvvvvvvvvvv", "alice", "rrrrrrrrrrrr", "2025-01-01", "20:00", 4,
          "confirmed"⟩]⟩, []⟩ :=
  updateReservation_full_slot_409_unchanged none _ "bob" "user" "wwwwwwwwwwww"
    none (some "20:00") none
    ⟨"wwwwwwwwwwww", "bob", "rrrrrrrrrrrr", "2025-01-01", "19:00", 2,
      "pending"⟩
    ⟨"rrrrrrrrrrrr", "owner1", some 1, none⟩
    (by decide) (by decide) (Or.inl rfl) (by decide) (by decide)

/-! ## C6: duplicate booking rejected before the capacity check -/

/-- C6: a user who already holds a non-cancelled reservation at the exact
(restaurant, date, time) — string equality on date and time — gets
Conflict (400) on a second Create for that slot, with the store unchanged;
no assumption relates the slot's occupancy to the capacity, so the 400
verdict holds in particular when the slot is also full (the duplicate
check runs before the capacity check). -/
theorem create_duplicate_conflict
    (io? : Option Transport) (db : DB) (userId rid d t newId : String)
    (ps : Int) (rest : Restaurant)
    (hrid : rid ≠ "") (hd : d ≠ "") (ht : t ≠ "") (hps : ps ≠ 0)
    (hvalid : isValidObjectId rid = true)
    (hrest : db.restaurants.find? (fun r => r._id == rid) = some rest)
    (hdup : ∃ e ∈ db.reservations, dupPred userId rid d t e = true) :
    createReservation io? db userId (some rid) (some d) (some t) (some ps)
      newId =
      ⟨.err 400 "You already have a reservation for this slot", db, []⟩ := by
  obtain ⟨e, he, hpe⟩ := hdup
  have hfound : ∃ a, db.reservations.find? (dupPred userId rid d t) = some a := by
    cases hf : db.reservations.find? (dupPred userId rid d t) with
    | none => exact absurd hpe (by simpa using List.find?_eq_none.mp hf e he)
    | some a => exact ⟨a, rfl⟩
  obtain ⟨a, ha⟩ := hfound
  simp [createReservation, strFalsy, intFalsy, hrid, hd, ht, hps, hvalid,
    hrest, ha]

/-- C6 witness: alice already holds a pending booking at the slot, and the
slot is moreover full (capacity 1): her second Create still fails with the
Conflict message and status 400, not with the Capacity 409. -/
theorem create_duplicate_conflict_witness :
    createReservation none
      ⟨[⟨"rrrrrrrrrrrr", "owner1", some 1, none⟩],
       [⟨"vvvvvvvvvvvv", "alice", "rrrrrrrrrrrr", "2025-01-01", "19:00", 2,
         "pending"⟩]⟩
      "alice" (some "rrrrrrrrrrrr") (some "2025-01-01") (some "19:00")
      (some 2) "nnnnnnnnnnnn" =
      ⟨.err 400 "You already have a reservation for this slot",
       ⟨[⟨"rrrrrrrrrrrr", "owner1", some 1, none⟩],
        [⟨"vvvvvvvvvvvv", "alice", "rrrrrrrrrrrr", "2025-01-01", "19:00", 2,
          "pending"⟩]⟩, []⟩ ∧
    createCapacity ⟨"rrrrrrrrrrrr", "owner1", some 1, none⟩ ≤
      (slotCount
        ⟨[⟨"rrrrrrrrrrrr", "owner1", some 1, none⟩],
         [⟨"vvvvvvvvvvvv", "alice", "rrrrrrrrrrrr", "2025-01-01", "19:00", 2,
           "pending"⟩]⟩ "rrrrrrrrrrrr" "2025-01-01" "19:00" : Int) := by
  constructor
  · exact create_duplicate_conflict none _ "alice" "rrrrrrrrrrrr"
      "2025-01-01" "19:00" "nnnnnnnnnnnn" 2
      ⟨"rrrrrrrrrrrr", "owner1", some 1, none⟩
      (by decide) (by decide) (by decide) (by decide) (by decide) (by decide)
      ⟨⟨"vvvvvvvvvvvv", "alice", "rrrrrrrrrrrr", "2025-01-01", "19:00", 2,
        "pending"⟩, by decide, by decide⟩
  · decide

/-- Replacing every element whose `_id` matches by a fixed record carrying
that same `_id` moves `find?` onto the replacement. -/
lemma find?_map_replace (l : List Reservation) (id : String)
    (resv resv' : Reservation)
    (hfind : l.find? (fun r => r._id == id) = some resv)
    (hid' : resv'._id = resv._id) :
    (l.map (fun x => if x._id == id then resv' else x)).find?
      (fun r => r._id == id) = some resv' := by
  have hres : (resv._id == id) = true := by
    simpa using List.find?_some hfind
  induction l with
  | nil => cases hfind
  | cons a l ih =>
    by_cases ha : (a._id == id) = true
    · rw [List.find?_cons_of_pos (p := fun (r : Reservation) => r._id == id) _ ha] at hfind
      injection hfind with h
      subst h
      simp only [List.map_cons, ha, if_true]
      exact List.find?_cons_of_pos (p := fun (r : Reservation) => r._id == id) _
        (by show (resv'._id == id) = true; rw [hid']; exact hres)
    · rw [List.find?_cons_of_neg (p := fun (r : Reservation) => r._id == id) _ ha] at hfind
      simp only [List.map_cons, if_neg ha]
      rw [List.find?_cons_of_neg (p := fun (r : Reservation) => r._id == id) _ ha]
      exact ih hfind

/-- Replacing by `r1` and then by `r2 = r1` is the same as replacing
once. -/
lemma map_replace_twice (l : List Reservation) (id : String)
    (r1 r2 : Reservation) (h : r2 = r1) :
    ((l.map (fun x => if x._id == id then r1 else x)).map
      (fun x => if x._id == id then r2 else x)) =
    l.map (fun x => if x._id == id then r1 else x) := by
  subst h
  rw [List.map_map]
  apply List.map_congr_left
  intro a _
  by_cases ha : (a._id == id) = true
  · simp [Function.comp, ha]
  · simp [Function.comp, ha]

/-- Evaluation of `cancelReservation` on the authorized happy path. -/
lemma cancelReservation_ok (io? : Option Transport) (db : DB)
    (userId role id : String) (resv : Reservation) (rest : Restaurant)
    (hvalid : isValidObjectId id = true)
    (hfind : db.reservations.find? (fun r => r._id == id) = some resv)
    (hrest : db.restaurants.find? (fun r => r._id == resv.restaurant) =
      some rest)
    (hauth : resv.user = userId ∨ rest.owner = userId ∨ role = "admin") :
    cancelReservation io? db userId role id =
      ⟨.ok 200 { resv with status := "cancelled" },
       ⟨db.restaurants, db.reservations.map
         (fun x => if x._id == id then { resv with status := "cancelled" }
           else x)⟩,
       [safeEmit io? "reservationCancelled" "summary",
        safeEmit io? "reservationCancelled" "reservation"
          (some ("restaurant_" ++ resv.restaurant))]⟩ := by
  rcases hauth with huser | howner | hadmin
  · simp [cancelReservation, hvalid, hfind, hrest, huser]
  · simp [cancelReservation, hvalid, hfind, hrest, howner]
  · simp [cancelReservation, hvalid, hfind, hrest, hadmin]

/-- Evaluation of `cancelReservationByAdmin` on the happy path. -/
lemma cancelReservationByAdmin_ok (io? : Option Transport) (db : DB)
    (id : String) (resv : Reservation)
    (hvalid : isValidObjectId id = true)
    (hfind : db.reservations.find? (fun r => r._id == id) = some resv) :
    cancelReservationByAdmin io? db id =
      ⟨.ok 200 { resv with status := "cancelled" },
       ⟨db.restaurants, db.reservations.map
         (fun x => if x._id == id then { resv with status := "cancelled" }
           else x)⟩,
       [safeEmit io? "reservationCancelled" "summary",
        safeEmit io? "reservationCancelled" "reservation"
          (some ("restaurant_" ++ resv.restaurant))]⟩ := by
  simp [cancelReservationByAdmin, hvalid, hfind]

/-! ## C9: Cancel is unconditional on the prior status and idempotent -/

/-- C9: for an existing reservation (whose restaurant record exists) and an
authorized actor — the reservation's user, the restaurant's owner, or an
admin — Cancel answers 200 and sets the status to "cancelled" whatever the
prior status; running it a second time answers 200 again and leaves the
store exactly as after the first run.  The admin cancel endpoint behaves
the same way (it does not even look at the restaurant). -/
theorem cancel_unconditional_idempotent
    (io? : Option Transport) (db : DB) (userId role id : String)
    (resv : Reservation) (rest : Restaurant)
    (hvalid : isValidObjectId id = true)
    (hfind : db.reservations.find? (fun r => r._id == id) = some resv)
    (hrest : db.restaurants.find? (fun r => r._id == resv.restaurant) =
      some rest)
    (hauth : resv.user = userId ∨ rest.owner = userId ∨ role = "admin") :
    ((cancelReservation io? db userId role id).res =
      .ok 200 { resv with status := "cancelled" }) ∧
    ((cancelReservation io? (cancelReservation io? db userId role id).db
        userId role id).res = .ok 200 { resv with status := "cancelled" }) ∧
    ((cancelReservation io? (cancelReservation io? db userId role id).db
        userId role id).db = (cancelReservation io? db userId role id).db) ∧
    ((cancelReservationByAdmin io? db id).res =
      .ok 200 { resv with status := "cancelled" }) ∧
    ((cancelReservationByAdmin io?
        (cancelReservationByAdmin io? db id).db id).db =
      (cancelReservationByAdmin io? db id).db) := by
  have hcancel := cancelReservation_ok io? db userId role id resv rest
    hvalid hfind hrest hauth
  have hfind' : (db.reservations.map
      (fun x => if x._id == id then { resv with status := "cancelled" }
        else x)).find? (fun r => r._id == id) =
      some { resv with status := "cancelled" } :=
    find?_map_replace db.reservations id resv _ hfind rfl
  have hdb1 : (cancelReservation io? db userId role id).db =
      ⟨db.restaurants, db.reservations.map
        (fun x => if x._id == id then { resv with status := "cancelled" }
          else x)⟩ := by rw [hcancel]
  have h2 := cancelReservation_ok io?
    ⟨db.restaurants, db.reservations.map
      (fun x => if x._id == id then { resv with status := "cancelled" }
        else x)⟩
    userId role id { resv with status := "cancelled" } rest
    hvalid hfind' hrest hauth
  have hidem := map_replace_twice db.reservations id
    { resv with status := "cancelled" }
    { ({ resv with status := "cancelled" } : Reservation) with
      status := "cancelled" } rfl
  have hadmincancel := cancelReservationByAdmin_ok io? db id resv hvalid hfind
  have hadmindb1 : (cancelReservationByAdmin io? db id).db =
      ⟨db.restaurants, db.reservations.map
        (fun x => if x._id == id then { resv with status := "cancelled" }
          else x)⟩ := by rw [hadmincancel]
  have hadmin2 := cancelReservationByAdmin_ok io?
    ⟨db.restaurants, db.reservations.map
      (fun x => if x._id == id then { resv with status := "cancelled" }
        else x)⟩
    id { resv with status := "cancelled" } hvalid hfind'
  refine ⟨by rw [hcancel], ?_, ?_, by rw [hadmincancel], ?_⟩
  · rw [hdb1, h2]
  · rw [hdb1, h2]
    exact congrArg (DB.mk db.restaurants) hidem
  · rw [hadmindb1, hadmin2]
    exact congrArg (DB.mk db.restaurants) hidem

/-- C9 witness: cancelling alice's confirmed reservation twice (as alice)
gives 200 both times and the second run changes nothing. -/
theorem cancel_unconditional_idempotent_witness :
    ((cancelReservation none
      ⟨[⟨"rrrrrrrrrrrr", "owner1", some 5, none⟩],
       [⟨"vvvvvvvvvvvv", "alice", "rrrrrrrrrrrr", "2025-01-01", "19:00", 2,
         "confirmed"⟩]⟩ "alice" "user" "vvvvvvvvvvvv").res =
      .ok 200 ⟨"vvvvvvvvvvvv", "alice", "rrrrrrrrrrrr", "2025-01-01", "19:00",
        2, "cancelled"⟩) ∧
    ((cancelReservation none
      (cancelReservation none
        ⟨[⟨"rrrrrrrrrrrr", "owner1", some 5, none⟩],
         [⟨"vvvvvvvvvvvv", "alice", "rrrrrrrrrrrr", "2025-01-01", "19:00", 2,
           "confirmed"⟩]⟩ "alice" "user" "vvvvvvvvvvvv").db
      "alice" "user" "vvvvvvvvvvvv").db =
      (cancelReservation none
        ⟨[⟨"rrrrrrrrrrrr", "owner1", some 5, none⟩],
         [⟨"vvvvvvvvvvvv", "alice", "rrrrrrrrrrrr", "2025-01-01", "19:00", 2,
           "confirmed"⟩]⟩ "alice" "user" "vvvvvvvvvvvv").db) := by
  have h := cancel_unconditional_idempotent none
    ⟨[⟨"rrrrrrrrrrrr", "owner1", some 5, none⟩],
     [⟨"vvvvvvvvvvvv", "alice", "rrrrrrrrrrrr", "2025-01-01", "19:00", 2,
       "confirmed"⟩]⟩ "alice" "user" "vvvvvvvvvvvv"
    ⟨"vvvvvvvvvvvv", "alice", "rrrrrrrrrrrr", "2025-01-01", "19:00", 2,
      "confirmed"⟩
    ⟨"rrrrrrrrrrrr", "owner1", some 5, none⟩
    (by decide) (by decide) (by decide) (Or.inl rfl)
  exact ⟨h.1, h.2.2.1⟩

/-! ## C10: the admin update path has no capacity or status validation -/

/-- C10: for any existing reservation with a well-formed id, the admin
update endpoint answers 200 and persists every truthy supplied field
(`status`, `date`, `time`, `partySize`) exactly as given: the statement
quantifies over every store, every target slot, and every status string,
with no occupancy-versus-capacity hypothesis and no membership of the
status in the four allowed values — there is no such check on this path, so
it can overfill a slot and store arbitrary status strings (see the
witness). -/
theorem admin_update_unconditional
    (io? : Option Transport) (db : DB) (id : String)
    (status? date? time? : Option String) (partySize? : Option Int)
    (resv : Reservation)
    (hvalid : isValidObjectId id = true)
    (hfind : db.reservations.find? (fun r => r._id == id) = some resv) :
    ((updateReservationByAdmin io? db id status? date? time? partySize?).res =
      .ok 200 { resv with
        status := applyStr status? resv.status,
        date := applyStr date? resv.date,
        time := applyStr time? resv.time,
        partySize := applyInt partySize? resv.partySize }) ∧
    ((updateReservationByAdmin io? db id status? date? time?
        partySize?).db.reservations.find? (fun r => r._id == id) =
      some { resv with
        status := applyStr status? resv.status,
        date := applyStr date? resv.date,
        time := applyStr time? resv.time,
        partySize := applyInt partySize? resv.partySize }) := by
  constructor
  · simp [updateReservationByAdmin, hvalid, hfind]
  · have hstep : (updateReservationByAdmin io? db id status? date? time?
        partySize?).db.reservations =
        db.reservations.map (fun x => if x._id == id then
          { resv with
            status := applyStr status? resv.status,
            date := applyStr date? resv.date,
            time := applyStr time? resv.time,
            partySize := applyInt partySize? resv.partySize } else x) := by
      simp [updateReservationByAdmin, hvalid, hfind]
    rw [hstep]
    exact find?_map_replace db.reservations id resv _ hfind rfl

/-- C10 witness: with capacity 1 and alice already confirmed at 20:00, the
admin moves bob's reservation onto 20:00 with the made-up status
"archived": the call answers 200, the slot's non-cancelled count rises to
2 > capacity 1, and the stored status is the disallowed string. -/
theorem admin_update_unconditional_witness :
    ((updateReservationByAdmin none
      ⟨[⟨"rrrrrrrrrrrr", "owner1", some 1, none⟩],
       [⟨"wwwwwwwwwwww", "bob", "rrrrrrrrrrrr", "2025-01-01", "19:00", 2,
         "pending"⟩,
        ⟨"vvvvvvvvvvvv", "alice", "rrrrrrrrrrrr", "2025-01-01", "20:00", 4,
         "confirmed"⟩]⟩
      "wwwwwwwwwwww" (some "archived") none (some "20:00") none).res =
      .ok 200 ⟨"wwwwwwwwwwww", "bob", "rrrrrrrrrrrr", "2025-01-01", "20:00",
        2, "archived"⟩) ∧
    slotCount (updateReservationByAdmin none
      ⟨[⟨"rrrrrrrrrrrr", "owner1", some 1, none⟩],
       [⟨"wwwwwwwwwwww", "bob", "rrrrrrrrrrrr", "2025-01-01", "19:00", 2,
         "pending"⟩,
        ⟨"vvvvvvvvvvvv", "alice", "rrrrrrrrrrrr", "2025-01-01", "20:00", 4,
         "confirmed"⟩]⟩
      "wwwwwwwwwwww" (some "archived") none (some "20:00") none).db
      "rrrrrrrrrrrr" "2025-01-01" "20:00" = 2 ∧
    createCapacity ⟨"rrrrrrrrrrrr", "owner1", some 1, none⟩ = 1 ∧
    allowedStatuses.contains "archived" = false := by
  refine ⟨?_, by decide, by decide, by decide⟩
  exact (admin_update_unconditional none
    ⟨[⟨"rrrrrrrrrrrr", "owner1", some 1, none⟩],
     [⟨"wwwwwwwwwwww", "bob", "rrrrrrrrrrrr", "2025-01-01", "19:00", 2,
       "pending"⟩,
      ⟨"vvvvvvvvvvvv", "alice", "rrrrrrrrrrrr", "2025-01-01", "20:00", 4,
       "confirmed"⟩]⟩
    "wwwwwwwwwwww" (some "archived") none (some "20:00") none
    ⟨"wwwwwwwwwwww", "bob", "rrrrrrrrrrrr", "2025-01-01", "19:00", 2,
      "pending"⟩ (by decide) (by decide)).1

/-- Mapping each element and filtering afterwards yields at most as many
elements, provided `f` never makes the predicate become true. -/
lemma filter_length_map_le {α : Type} (l : List α) (f : α → α) (p : α → Bool)
    (h : ∀ a ∈ l, p (f a) = true → p a = true) :
    ((l.map f).filter p).length ≤ (l.filter p).length := by
  induction l with
  | nil => simp
  | cons a l ih =>
    have ih' := ih (fun x hx hq => h x (List.mem_cons_of_mem a hx) hq)
    have ha := h a (List.mem_cons_self a l)
    simp only [List.map_cons, List.filter_cons]
    by_cases hq : p (f a) = true
    · rw [if_pos hq, if_pos (ha hq)]
      simpa using ih'
    · rw [if_neg hq]
      split
      · simp
        omega
      · exact ih'

/-- If moreover `f` turns some member satisfying the predicate into one
that does not, the filtered count strictly drops. -/
lemma filter_length_map_lt {α : Type} (l : List α) (f : α → α) (p : α → Bool)
    (h : ∀ a ∈ l, p (f a) = true → p a = true)
    (c : α) (hc : c ∈ l) (hpc : p c = true) (hfc : p (f c) = false) :
    ((l.map f).filter p).length < (l.filter p).length := by
  induction l with
  | nil => cases hc
  | cons a l ih =>
    have hmono := filter_length_map_le l f p
      (fun x hx hq => h x (List.mem_cons_of_mem a hx) hq)
    simp only [List.map_cons, List.filter_cons]
    rcases List.mem_cons.mp hc with rfl | hc'
    · rw [if_neg (by simp [hfc]), if_pos hpc]
      simp
      omega
    · have ih' := ih (fun x hx hq => h x (List.mem_cons_of_mem a hx) hq) hc'
      have ha := h a (List.mem_cons_self a l)
      by_cases hq : p (f a) = true
      · rw [if_pos hq, if_pos (ha hq)]
        simpa using ih'
      · rw [if_neg hq]
        split
        · simp
          omega
        · exact ih'

/-- Evaluation of `createReservation` when every gate passes and the slot
still has room. -/
lemma createReservation_room_ok (io? : Option Transport) (db : DB)
    (userId rid d t newId : String) (ps : Int) (rest : Restaurant)
    (hrid : rid ≠ "") (hd : d ≠ "") (ht : t ≠ "") (hps : ps ≠ 0)
    (hvalid : isValidObjectId rid = true)
    (hrest : db.restaurants.find? (fun r => r._id == rid) = some rest)
    (hnodup : db.reservations.find? (dupPred userId rid d t) = none)
    (hroom : (slotCount db rid d t : Int) < createCapacity rest) :
    createReservation io? db userId (some rid) (some d) (some t) (some ps)
      newId =
      ⟨.ok 201 ⟨newId, userId, rid, d, t, ps, "pending"⟩,
       ⟨db.restaurants,
        db.reservations ++ [⟨newId, userId, rid, d, t, ps, "pending"⟩]⟩,
       [safeEmit io? "reservationCreated" "reservation",
        safeEmit io? "reservationCreated" "reservation"
          (some ("restaurant_" ++ rid))]⟩ := by
  have hnotfull : ¬ createCapacity rest ≤ (slotCount db rid d t : Int) :=
    not_le.mpr hroom
  simp [createReservation, strFalsy, intFalsy, hrid, hd, ht, hps, hvalid,
    hrest, hnodup, hnotfull]

/-- Evaluation of `createReservation` when every gate passes but the slot
is full. -/
lemma createReservation_full_409 (io? : Option Transport) (db : DB)
    (userId rid d t newId : String) (ps : Int) (rest : Restaurant)
    (hrid : rid ≠ "") (hd : d ≠ "") (ht : t ≠ "") (hps : ps ≠ 0)
    (hvalid : isValidObjectId rid = true)
    (hrest : db.restaurants.find? (fun r => r._id == rid) = some rest)
    (hnodup : db.reservations.find? (dupPred userId rid d t) = none)
    (hfull : createCapacity rest ≤ (slotCount db rid d t : Int)) :
    createReservation io? db userId (some rid) (some d) (some t) (some ps)
      newId =
      ⟨.err 409 "No availability for selected slot", db, []⟩ := by
  simp [createReservation, strFalsy, intFalsy, hrid, hd, ht, hps, hvalid,
    hrest, hnodup, hfull]

/-! ## C1: slot-capacity accounting of Create, and cancellation freeing -/

set_option maxHeartbeats 1600000 in
/-- C1: when the four body fields are present, the restaurant exists with
resolved capacity `createCapacity rest`, and the creating user holds no
non-cancelled reservation at the slot, Create succeeds and appends a new
pending reservation exactly when the count of non-cancelled reservations at
the slot is below the capacity, and fails with 409 leaving the store
untouched exactly when that count is at or above the capacity; and since a
cancelled reservation never counts, cancelling any one of the occupying
reservations of a full slot makes a subsequent Create for that slot
succeed. -/
theorem create_respects_capacity
    (io? : Option Transport) (db : DB) (userId rid d t newId : String)
    (ps : Int) (rest : Restaurant)
    (hrid : rid ≠ "") (hd : d ≠ "") (ht : t ≠ "") (hps : ps ≠ 0)
    (hvalid : isValidObjectId rid = true)
    (hrest : db.restaurants.find? (fun r => r._id == rid) = some rest)
    (hnodup : db.reservations.find? (dupPred userId rid d t) = none) :
    ((slotCount db rid d t : Int) < createCapacity rest →
      createReservation io? db userId (some rid) (some d) (some t) (some ps)
        newId =
        ⟨.ok 201 ⟨newId, userId, rid, d, t, ps, "pending"⟩,
         ⟨db.restaurants,
          db.reservations ++ [⟨newId, userId, rid, d, t, ps, "pending"⟩]⟩,
         [safeEmit io? "reservationCreated" "reservation",
          safeEmit io? "reservationCreated" "reservation"
            (some ("restaurant_" ++ rid))]⟩) ∧
    (createCapacity rest ≤ (slotCount db rid d t : Int) →
      createReservation io? db userId (some rid) (some d) (some t) (some ps)
        newId =
        ⟨.err 409 "No availability for selected slot", db, []⟩) ∧
    (∀ (c : Reservation) (crole : String),
      db.reservations.find? (fun r => r._id == c._id) = some c →
      inSlot rid d t c = true →
      isValidObjectId c._id = true →
      (slotCount db rid d t : Int) = createCapacity rest →
      (createReservation io?
        (cancelReservation io? db c.user crole c._id).db userId (some rid)
        (some d) (some t) (some ps) newId).res =
        .ok 201 ⟨newId, userId, rid, d, t, ps, "pending"⟩) := by
  refine ⟨?_, ?_, ?_⟩
  · intro hroom
    exact createReservation_room_ok io? db userId rid d t newId ps rest
      hrid hd ht hps hvalid hrest hnodup hroom
  · intro hfull
    exact createReservation_full_409 io? db userId rid d t newId ps rest
      hrid hd ht hps hvalid hrest hnodup hfull
  · intro c crole hcfind hcslot hcvalid hcfullExact
    have hcmem : c ∈ db.reservations := List.mem_of_find?_eq_some hcfind
    have hcrest : c.restaurant = rid := by
      have h := hcslot
      simp only [inSlot, Bool.and_eq_true, beq_iff_eq] at h
      exact h.1.1.1
    have hrestc : db.restaurants.find? (fun r => r._id == c.restaurant) =
        some rest := by rw [hcrest]; exact hrest
    have hcancel := cancelReservation_ok io? db c.user crole c._id c rest
      hcvalid hcfind hrestc (Or.inl rfl)
    have hdbc : (cancelReservation io? db c.user crole c._id).db =
        ⟨db.restaurants, db.reservations.map
          (fun x => if x._id == c._id then { c with status := "cancelled" }
            else x)⟩ := by rw [hcancel]
    have himp : ∀ a ∈ db.reservations,
        inSlot rid d t (if a._id == c._id then
          { c with status := "cancelled" } else a) = true →
        inSlot rid d t a = true := by
      intro a _ hq
      by_cases ha : (a._id == c._id) = true
      · rw [if_pos ha] at hq
        simp [inSlot] at hq
      · rwa [if_neg ha] at hq
    have hdrop : ((db.reservations.map
        (fun x => if x._id == c._id then { c with status := "cancelled" }
          else x)).filter (inSlot rid d t)).length <
        (db.reservations.filter (inSlot rid d t)).length := by
      refine filter_length_map_lt db.reservations _ _ himp c hcmem hcslot ?_
      simp [inSlot]
    have hroom' : (slotCount
        (⟨db.restaurants, db.reservations.map
          (fun x => if x._id == c._id then { c with status := "cancelled" }
            else x)⟩ : DB) rid d t : Int) < createCapacity rest := by
      rw [← hcfullExact]
      exact_mod_cast hdrop
    have hnodup' : (⟨db.restaurants, db.reservations.map
        (fun x => if x._id == c._id then { c with status := "cancelled" }
          else x)⟩ : DB).reservations.find? (dupPred userId rid d t) =
        none := by
      apply List.find?_eq_none.mpr
      intro x hx
      obtain ⟨a, ha, rfl⟩ := List.mem_map.mp hx
      by_cases haid : (a._id == c._id) = true
      · rw [if_pos haid]
        simp [dupPred]
      · rw [if_neg haid]
        exact List.find?_eq_none.mp hnodup a ha
    have hok := createReservation_room_ok io?
      ⟨db.restaurants, db.reservations.map
        (fun x => if x._id == c._id then { c with status := "cancelled" }
          else x)⟩
      userId rid d t newId ps rest hrid hd ht hps hvalid hrest hnodup' hroom'
    rw [hdbc, hok]

/-- C1 witness: capacity 1 and alice occupying the slot: bob's Create
fails with 409; after cancelling alice's reservation, bob's Create
succeeds with a new pending reservation. -/
theorem create_respects_capacity_witness :
    (createReservation none
      ⟨[⟨"rrrrrrrrrrrr", "owner1", some 1, none⟩],
       [⟨"vvvvvvvvvvvv", "alice", "rrrrrrrrrrrr", "2025-01-01", "19:00", 2,
         "pending"⟩]⟩
      "bob" (some "rrrrrrrrrrrr") (some "2025-01-01") (some "19:00") (some 3)
      "nnnnnnnnnnnn" =
      ⟨.err 409 "No availability for selected slot",
       ⟨[⟨"rrrrrrrrrrrr", "owner1", some 1, none⟩],
        [⟨"vvvvvvvvvvvv", "alice", "rrrrrrrrrrrr", "2025-01-01", "19:00", 2,
          "pending"⟩]⟩, []⟩) ∧
    ((createReservation none
      (cancelReservation none
        ⟨[⟨"rrrrrrrrrrrr", "owner1", some 1, none⟩],
         [⟨"vvvvvvvvvvvv", "alice", "rrrrrrrrrrrr", "2025-01-01", "19:00", 2,
           "pending"⟩]⟩ "alice" "user" "vvvvvvvvvvvv").db
      "bob" (some "rrrrrrrrrrrr") (some "2025-01-01") (some "19:00") (some 3)
      "nnnnnnnnnnnn").res =
      .ok 201 ⟨"nnnnnnnnnnnn", "bob", "rrrrrrrrrrrr", "2025-01-01", "19:00",
        3, "pending"⟩) := by
  have h := create_respects_capacity none
    ⟨[⟨"rrrrrrrrrrrr", "owner1", some 1, none⟩],
     [⟨"vvvvvvvvvvvv", "alice", "rrrrrrrrrrrr", "2025-01-01", "19:00", 2,
       "pending"⟩]⟩
    "bob" "rrrrrrrrrrrr" "2025-01-01" "19:00" "nnnnnnnnnnnn" 3
    ⟨"rrrrrrrrrrrr", "owner1", some 1, none⟩
    (by decide) (by decide) (by decide) (by decide) (by decide) (by decide)
    (by decide)
  exact ⟨h.2.1 (by decide),
    h.2.2 ⟨"vvvvvvvvvvvv", "alice", "rrrrrrrrrrrr", "2025-01-01", "19:00", 2,
      "pending"⟩ "user" (by decide) (by decide) (by decide) (by decide)⟩

end ReservationBackend
